import Mathlib

/-!
Verification of the rss2mail ingestion-and-delivery pipeline.

The development embeds the core of the repository:
- DatabaseService (feeds and posts tables, hash triggers, INSERT IGNORE
  deduplication, unsent selection, markPostsAsSent),
- RssService.fetchFeed (item-to-candidate mapping, failure handling),
- EmailService.sendNewPosts (delivery outcome),
- App.processFeeds (the per-tick orchestration loop).

External effects are made explicit: the RSS parser is an environment
function from a url to a parse outcome, the SES send is a supplied
outcome, and the current time is a parameter. MySQL statements are
embedded by their effect on an explicit table state.

The sql wrapper (the mysql module) itself destructures the tuple resolved
by connection.query and returns the rows array, or the ResultSetHeader,
already unwrapped. DatabaseService nevertheless destructures that return
a second time (const [rows] = await sql(...)), so at runtime listFeeds and
getUnsentPosts produce the first row as a single plain object (or
undefined), and addFeed destructures a non-iterable object. The embedding
models these runtime values and the TypeErrors they cause explicitly.
-/

namespace Rss2Mail

/-- SHA2 of a string as used by the MySQL triggers hash_url_before_insert and
hash_post_before_insert (DatabaseService.createTables). The 256-bit hash is
modeled as an abstract injective deterministic fingerprint: only determinism,
and freedom from collisions, are relied upon. -/
def sha2_256 (s : String) : String := s

/-- A parsed feed item as returned by the external RSS parser: every field may
be absent. The pubDate carries an already-parsed timestamp. -/
structure Item where
  title : Option String
  link : Option String
  content : Option String
  contentSnippet : Option String
  pubDate : Option Nat
  deriving DecidableEq

/-- The Post model: a candidate article produced by RssService.fetchFeed,
or a row read back from the store. -/
structure Post where
  id : Option Nat
  title : String
  link : String
  content : String
  pubDate : Nat
  feedId : Nat
  sent : Bool
  deriving DecidableEq

/-- A row of the posts table (DatabaseService.createTables): id is
AUTO_INCREMENT, hash is VARCHAR(64) UNIQUE filled by the BEFORE INSERT trigger
with SHA2(title, 256), link is UNIQUE, sent defaults to FALSE. -/
structure PostRow where
  id : Nat
  title : String
  link : String
  hash : String
  content : String
  pubDate : Nat
  feedId : Nat
  sent : Bool
  deriving DecidableEq

/-- A row of the feeds table: id is AUTO_INCREMENT, url_hash is UNIQUE and
filled by the BEFORE INSERT trigger with SHA2(url, 256), lastChecked nullable. -/
structure FeedRow where
  id : Nat
  url : String
  urlHash : String
  lastChecked : Option Nat
  deriving DecidableEq

/-- A Feed as returned by DatabaseService.listFeeds, which selects id, url and
lastChecked. The TypeScript Feed model declares id optional, which is why
App.processFeeds guards against an undefined id. -/
structure Feed where
  id : Option Nat
  url : String
  lastChecked : Option Nat
  deriving DecidableEq

/-- The persistent state: the two tables plus their AUTO_INCREMENT counters. -/
structure DBState where
  feeds : List FeedRow
  posts : List PostRow
  nextFeedId : Nat
  nextPostId : Nat
  deriving DecidableEq

/-- A freshly created database: createTables on an empty schema. -/
def dbEmpty : DBState := { feeds := [], posts := [], nextFeedId := 1, nextPostId := 1 }

/-- JavaScript a || b for an optional string: undefined and the empty string
are both falsy and fall through to the default. -/
def jsOr (a : Option String) (b : String) : String :=
  match a with
  | none => b
  | some s => if s = "" then b else s

/-- RssService.fetchFeed: parse the url (the parse outcome is supplied by the
env argument), map every item to a candidate Post with feedId set and sent
false; title and link default to the empty string, content falls back to
contentSnippet then to the empty string, pubDate falls back to the current
time. In dev mode only the first candidate is kept. Any retrieval or parse
failure is caught and yields the empty list. -/
def fetchFeed (dev : Bool) (env : String → Except String (List Item)) (now : Nat)
    (feedUrl : String) (feedId : Nat) : List Post :=
  match env feedUrl with
  | Except.error _ => []
  | Except.ok items =>
    let posts : List Post := items.map (fun item =>
      { id := none,
        title := jsOr item.title "",
        link := jsOr item.link "",
        content := jsOr item.content (jsOr item.contentSnippet ""),
        pubDate := item.pubDate.getD now,
        feedId := feedId,
        sent := false })
    if dev then posts.take 1 else posts

/-- The duplicate test an INSERT IGNORE into posts performs: the unique keys
are hash (SHA2 of the title, set by the trigger) and link. -/
def blockedRows (rows : List PostRow) (p : Post) : Bool :=
  rows.any (fun r => decide (r.hash = sha2_256 p.title) || decide (r.link = p.link))

/-- The row the INSERT IGNORE would create for candidate p; the trigger fills
hash from the title, sent is inserted as FALSE. -/
def newRowOf (st : DBState) (p : Post) : PostRow :=
  { id := st.nextPostId, title := p.title, link := p.link, hash := sha2_256 p.title,
    content := p.content, pubDate := p.pubDate, feedId := p.feedId, sent := false }

/-- One loop iteration of DatabaseService.saveNewPosts: INSERT IGNORE INTO
posts. A duplicate on either unique key is silently skipped, not an error. -/
def insertPostIgnore (st : DBState) (p : Post) : DBState :=
  if blockedRows st.posts p then st
  else { st with posts := st.posts ++ [newRowOf st p], nextPostId := st.nextPostId + 1 }

/-- DatabaseService.saveNewPosts: each candidate is attempted independently. -/
def saveNewPosts (posts : List Post) (st : DBState) : DBState :=
  posts.foldl insertPostIgnore st

/-- The order produced by SELECT ... ORDER BY pubDate DESC. -/
def pubDesc (a b : PostRow) : Prop := b.pubDate ≤ a.pubDate

instance : DecidableRel pubDesc :=
  fun a b => show Decidable (b.pubDate ≤ a.pubDate) from inferInstance

instance : IsTotal PostRow pubDesc := ⟨fun a b => Nat.le_total b.pubDate a.pubDate⟩

instance : IsTrans PostRow pubDesc := ⟨fun _ _ _ hab hbc => Nat.le_trans hbc hab⟩

/-- A coarse model of the JavaScript runtime values that flow out of the
misused query results: a real array, a single plain row object, or undefined. -/
inductive JsVal (α : Type) where
  | arr (elems : List α)
  | obj (a : α)
  | undef
  deriving DecidableEq

instance {ε α : Type} [DecidableEq ε] [DecidableEq α] : DecidableEq (Except ε α) :=
  fun a b =>
    match a, b with
    | Except.ok x, Except.ok y =>
      if h : x = y then isTrue (congrArg Except.ok h)
      else isFalse (fun hc => h (Except.ok.inj hc))
    | Except.ok _, Except.error _ => isFalse (fun hc => Except.noConfusion hc)
    | Except.error _, Except.ok _ => isFalse (fun hc => Except.noConfusion hc)
    | Except.error e, Except.error g =>
      if h : e = g then isTrue (congrArg Except.error h)
      else isFalse (fun hc => h (Except.error.inj hc))

/-- DatabaseService.getUnsentPosts as the code actually runs. The sql wrapper
returns the rows of SELECT * FROM posts WHERE sent = FALSE ORDER BY pubDate
DESC already unwrapped; const [rows] = ... destructures that array a second
time, binding rows to its first element (a single plain row object) or to
undefined when no row is unsent. In dev mode posts.slice(0, 1) then throws a
TypeError on either shape (a plain object has no slice method, undefined has
no properties). In production, return posts || [] yields the single object,
or the empty array when there was no unsent row. The full ordered set is
never returned. -/
def getUnsentPosts (dev : Bool) (st : DBState) : Except String (JsVal PostRow) :=
  let sorted := List.insertionSort pubDesc (st.posts.filter (fun r => !r.sent))
  match sorted.head? with
  | some r =>
    if dev then Except.error "TypeError: posts.slice is not a function"
    else Except.ok (JsVal.obj r)
  | none =>
    if dev then Except.error "TypeError: cannot read properties of undefined"
    else Except.ok (JsVal.arr [])

/-- Outcome of DatabaseService.addFeed as the code actually runs. On a
duplicate url the INSERT violates the UNIQUE index on url_hash; the sql
wrapper catches the MySQL error and calls process.exit(1), so the caller
never sees an error (processExit). On a successful INSERT, sql returns the
ResultSetHeader already unwrapped; const [result] = ... then destructures a
non-iterable plain object, throwing a TypeError that the catch in addFeed
logs and rethrows: the row is committed, but the new id is never returned.
thrownTypeError carries the post-insert store. -/
inductive AddFeedOutcome
  | thrownTypeError (st : DBState)
  | processExit
  deriving DecidableEq

/-- DatabaseService.addFeed: INSERT INTO feeds SET url = ?; the BEFORE INSERT
trigger computes url_hash = SHA2(url, 256), which carries a UNIQUE index. A
duplicate terminates the process via the sql wrapper; a successful insert
commits the row and then throws a TypeError while destructuring the
non-iterable ResultSetHeader, so no identifier reaches the caller. -/
def addFeed (url : String) (st : DBState) : AddFeedOutcome :=
  if st.feeds.any (fun f => decide (f.urlHash = sha2_256 url)) then AddFeedOutcome.processExit
  else
    AddFeedOutcome.thrownTypeError
      { st with
        feeds := st.feeds ++ [{ id := st.nextFeedId, url := url,
                                urlHash := sha2_256 url, lastChecked := none }],
        nextFeedId := st.nextFeedId + 1 }

/-- DatabaseService.markPostsAsSent: early return on an empty id list,
otherwise UPDATE posts SET sent = TRUE WHERE id IN (ids). Identifiers that
match no row simply affect nothing. -/
def markPostsAsSent (ids : List Nat) (st : DBState) : DBState :=
  if ids.isEmpty then st
  else { st with posts := st.posts.map (fun r => if r.id ∈ ids then { r with sent := true } else r) }

/-- The runtime value of DatabaseService.listFeeds. The sql wrapper returns
the rows of SELECT id, url, lastChecked FROM feeds already unwrapped;
const [feeds] = ... destructures that array a second time, so the caller
receives the first feed row as a single plain object (some), or undefined
(none) when the table is empty: never an array of feeds. -/
def listFeeds (st : DBState) : Option Feed :=
  (st.feeds.map (fun f =>
    ({ id := some f.id, url := f.url, lastChecked := f.lastChecked } : Feed))).head?

/-- Outcome of EmailService.sendNewPosts: a returned boolean, or a rethrown
send error. -/
inductive EmailOutcome
  | ok (delivered : Bool)
  | thrown (e : String)
  deriving DecidableEq

/-- EmailService.sendNewPosts: returns false on an empty list before anything
else; in dev mode logs and returns true without sending; otherwise sends via
SES and returns whether the response status was 200, rethrowing a send error.
The send outcome (error, or the HTTP status of the response) is supplied as an
argument. -/
def sendNewPosts (dev : Bool) (posts : List PostRow) (sendResult : Except String Nat) :
    EmailOutcome :=
  if posts.length = 0 then EmailOutcome.ok false
  else if dev then EmailOutcome.ok true
  else
    match sendResult with
    | Except.ok status => EmailOutcome.ok (status == 200)
    | Except.error e => EmailOutcome.thrown e

/-- The per-feed loop of App.processFeeds: a feed with undefined id is skipped
with a warning; otherwise its url is fetched and the candidates saved; in dev
mode the loop breaks after the first processed feed. Returns the final state
together with the list of (url, feedId) fetch calls that were made. -/
def persistFeeds (dev : Bool) (env : String → Except String (List Item)) (now : Nat) :
    List Feed → DBState → DBState × List (String × Nat)
  | [], st => (st, [])
  | f :: rest, st =>
    match f.id with
    | none => persistFeeds dev env now rest st
    | some fid =>
      let posts := fetchFeed dev env now f.url fid
      let st2 := saveNewPosts posts st
      if dev then (st2, [(f.url, fid)])
      else
        let r := persistFeeds dev env now rest st2
        (r.1, (f.url, fid) :: r.2)

/-- App.processFeeds, one tick, as the code actually runs. The loop header
for (const feed of feeds) at app.ts:146 iterates the value listFeeds
produced: the first feed row as a single plain object, or undefined. Neither
shape is iterable in JavaScript, so the header throws a TypeError before any
loop body runs; the catch at app.ts:163 logs it and the tick ends with the
store untouched. The fetch loop (persistFeeds), getUnsentPosts, sendNewPosts
and markPostsAsSent are unreachable in every tick. The tick environment (dev
flag, parser, clock, send outcome) stays in the signature but can never be
consulted. Returns the final store and the caught error. -/
def processFeeds (_dev : Bool) (_env : String → Except String (List Item)) (_now : Nat)
    (_sendResult : Except String Nat) (st : DBState) : DBState × String :=
  match listFeeds st with
  | some _ => (st, "TypeError: feeds is not iterable")
  | none => (st, "TypeError: feeds is not iterable")

/-! Helper lemmas about the INSERT IGNORE deduplication. -/

theorem saveNewPosts_nil (st : DBState) : saveNewPosts [] st = st := rfl

/-- An item with every optional field absent. -/
def exItem : Item :=
  { title := none, link := none, content := none, contentSnippet := none, pubDate := none }

/-- A stored, not yet sent article row. -/
def exPostRow : PostRow :=
  { id := 1, title := "X", link := "x", hash := sha2_256 "X", content := "",
    pubDate := 5, feedId := 1, sent := false }

/-- A store holding one unsent article and no feeds. -/
def exSt : DBState := { feeds := [], posts := [exPostRow], nextFeedId := 1, nextPostId := 2 }

/-- The store produced by registering the url u once into an empty store. -/
def exSt1 : DBState :=
  { feeds := [{ id := 1, url := "u", urlHash := sha2_256 "u", lastChecked := none }],
    posts := [], nextFeedId := 2, nextPostId := 1 }

/-! Claim theorems. -/

/-- C1: articles are marked sent only after confirmed delivery; if delivery
is not confirmed (a false return or a thrown send error), no sent flag is set
in that tick. This holds, vacuously: every tick throws a TypeError at the
for-of over the non-iterable value listFeeds produces, and ends in the catch
with the store untouched, whatever the delivery outcome would have been. In
particular the set of sent rows after any tick equals the set before, for
every send outcome including a non-200 response or a rejected send: marking
without confirmed delivery never happens because marking never happens. -/
theorem processFeeds_never_marks (dev : Bool) (env : String → Except String (List Item))
    (now : Nat) (sendResult : Except String Nat) (st : DBState) :
    processFeeds dev env now sendResult st = (st, "TypeError: feeds is not iterable") ∧
    (processFeeds dev env now sendResult st).1.posts.filter (fun r => r.sent) =
      st.posts.filter (fun r => r.sent) := by
  have h : processFeeds dev env now sendResult st = (st, "TypeError: feeds is not iterable") := by
    cases h2 : listFeeds st with
    | none => simp [processFeeds, h2]
    | some f => simp [processFeeds, h2]
  exact ⟨h, by rw [h]⟩

/-- C3 counterexample: both halves of the claim fail at the concrete url u.
Registering the fresh url u into the empty store commits the row but ends in
a rethrown TypeError from destructuring the non-iterable ResultSetHeader: the
newly assigned identifier is never returned to the caller. Registering u
again does not surface a DuplicateFeedError either: the sql wrapper catches
the unique-key violation on url_hash and terminates the process. Exactly one
row ever exists. -/
theorem addFeed_duplicate_counterexample :
    addFeed "u" dbEmpty = AddFeedOutcome.thrownTypeError exSt1 ∧
    addFeed "u" exSt1 = AddFeedOutcome.processExit ∧
    exSt1.feeds.length = 1 := by
  decide

/-- C3 (amended): given a url whose fingerprint already exists, addFeed
creates no second row and surfaces no DuplicateFeedError, because the sql
wrapper terminates the process on the unique-key violation. Given a fresh
url, exactly one row with that url is inserted with the next identifier, but
the caller never receives that identifier: the call ends in the TypeError
rethrown by the catch in addFeed. -/
theorem addFeed_spec (url : String) (st : DBState) :
    ((∃ f ∈ st.feeds, f.urlHash = sha2_256 url) →
      addFeed url st = AddFeedOutcome.processExit) ∧
    ((∀ f ∈ st.feeds, f.urlHash ≠ sha2_256 url) →
      ∃ st2, addFeed url st = AddFeedOutcome.thrownTypeError st2 ∧
        st2.feeds.map (fun f => f.url) = st.feeds.map (fun f => f.url) ++ [url] ∧
        st2.posts = st.posts ∧ st2.feeds.length = st.feeds.length + 1) := by
  constructor
  · intro h
    obtain ⟨f, hf, hh⟩ := h
    have hany : st.feeds.any (fun f => decide (f.urlHash = sha2_256 url)) = true := by
      rw [List.any_eq_true]
      exact ⟨f, hf, by simp [hh]⟩
    simp [addFeed, hany]
  · intro h
    have hany : st.feeds.any (fun f => decide (f.urlHash = sha2_256 url)) = false := by
      rw [Bool.eq_false_iff]
      intro hc
      rw [List.any_eq_true] at hc
      obtain ⟨f, hf, hd⟩ := hc
      exact h f hf (of_decide_eq_true hd)
    refine ⟨{ st with
        feeds := st.feeds ++ [{ id := st.nextFeedId, url := url,
                                urlHash := sha2_256 url, lastChecked := none }],
        nextFeedId := st.nextFeedId + 1 }, ?_, ?_, rfl, ?_⟩
    · simp [addFeed, hany]
    · simp
    · simp

/-- C3 witness: the amended theorem applied at the store already holding the
url u: the duplicate registration ends in process termination. -/
theorem addFeed_spec_witness : addFeed "u" exSt1 = AddFeedOutcome.processExit :=
  (addFeed_spec "u" exSt1).1 (by decide)

/-- An older unsent article row. -/
def exRowA : PostRow :=
  { id := 1, title := "A1", link := "a1", hash := sha2_256 "A1", content := "",
    pubDate := 5, feedId := 1, sent := false }

/-- A newer unsent article row. -/
def exRowB : PostRow :=
  { id := 2, title := "B2", link := "b2", hash := sha2_256 "B2", content := "",
    pubDate := 9, feedId := 1, sent := false }

/-- A store holding two unsent articles with distinct publish times. -/
def exSt2 : DBState := { feeds := [], posts := [exRowA, exRowB], nextFeedId := 1, nextPostId := 3 }

/-- C4: the claim says getUnsentArticles returns exactly the articles whose
sent flag is false, ordered by publishedAt descending. The SELECT statement
computes exactly that set, which documents the intent, but the second
destructuring of the already-unwrapped sql return is a slip: on a store with
two unsent articles the production call returns only the newest row, as a
single plain object rather than the two-element ordered sequence, and the dev
call throws a TypeError. This theorem evaluates the code at that failing
input. -/
theorem getUnsentPosts_first_row_only :
    (exSt2.posts.filter (fun r => !r.sent)).length = 2 ∧
    getUnsentPosts false exSt2 = Except.ok (JsVal.obj exRowB) ∧
    getUnsentPosts true exSt2 = Except.error "TypeError: posts.slice is not a function" := by
  decide

theorem persistFeeds_err_cons (env : String → Except String (List Item)) (now : Nat)
    (f : Feed) (l2 : List Feed) (st : DBState) (e : String)
    (hf : env f.url = Except.error e) :
    (persistFeeds false env now (f :: l2) st).1 = (persistFeeds false env now l2 st).1 := by
  cases hid : f.id with
  | none => simp [persistFeeds, hid]
  | some fid =>
    have hfetch : fetchFeed false env now f.url fid = [] := by
      unfold fetchFeed
      rw [hf]
    simp [persistFeeds, hid, hfetch, saveNewPosts_nil]

/-- C5: a retrieval or parse failure makes fetchFeed return the empty list (the
error is caught, for any dev flag), and in a production tick a feed whose fetch
fails leaves the resulting store exactly as if that feed were absent: every
other feed is still fetched and its articles persisted. -/
theorem fetchFeed_failure_isolated (env : String → Except String (List Item)) (now : Nat)
    (st : DBState) (l1 l2 : List Feed) (f : Feed) (e : String)
    (hf : env f.url = Except.error e) :
    (∀ (dev : Bool) (fid : Nat), fetchFeed dev env now f.url fid = []) ∧
    (persistFeeds false env now (l1 ++ f :: l2) st).1 =
      (persistFeeds false env now (l1 ++ l2) st).1 := by
  constructor
  · intro dev fid
    unfold fetchFeed
    rw [hf]
  · induction l1 generalizing st with
    | nil => simpa using persistFeeds_err_cons env now f l2 st e hf
    | cons g l1 ih =>
      cases hid : g.id with
      | none => simpa [persistFeeds, hid] using ih st
      | some gid =>
        simpa [persistFeeds, hid] using
          ih (saveNewPosts (fetchFeed false env now g.url gid) st)

/-- An item for the first feed of the three-feed scenario. -/
def exItemX1 : Item :=
  { title := some "X1", link := some "x1", content := none, contentSnippet := none,
    pubDate := some 10 }

/-- An item for the third feed of the three-feed scenario. -/
def exItemX3 : Item :=
  { title := some "X3", link := some "x3", content := none, contentSnippet := none,
    pubDate := some 30 }

/-- A parser environment where url u2 fails with a network error and the other
urls parse successfully. -/
def exEnv3 : String → Except String (List Item) := fun u =>
  if u = "u2" then Except.error "network error"
  else if u = "u1" then Except.ok [exItemX1]
  else Except.ok [exItemX3]

/-- First feed of the scenario. -/
def exF1 : Feed := { id := some 1, url := "u1", lastChecked := none }

/-- Second feed of the scenario; its fetch fails. -/
def exF2 : Feed := { id := some 2, url := "u2", lastChecked := none }

/-- Third feed of the scenario. -/
def exF3 : Feed := { id := some 3, url := "u3", lastChecked := none }

/-- C5 witness: in the three-feed scenario the failing middle feed leaves the
final store identical to the run without it. -/
theorem fetchFeed_failure_isolated_witness :
    (persistFeeds false exEnv3 0 ([exF1] ++ exF2 :: [exF3]) dbEmpty).1 =
      (persistFeeds false exEnv3 0 ([exF1] ++ [exF3]) dbEmpty).1 :=
  (fetchFeed_failure_isolated exEnv3 0 dbEmpty [exF1] [exF3] exF2 "network error" rfl).2

/-- C6: markPostsAsSent on the empty id list mutates nothing; otherwise every
stored row whose id is listed reappears with sent = true, every other row is
unchanged, and every row of the result arises this way from a stored row, so
identifiers matching no row have no effect and cause no failure. -/
theorem markPostsAsSent_spec (ids : List Nat) (st : DBState) :
    markPostsAsSent [] st = st ∧
    (∀ r ∈ st.posts, r.id ∈ ids → { r with sent := true } ∈ (markPostsAsSent ids st).posts) ∧
    (∀ r ∈ st.posts, r.id ∉ ids → r ∈ (markPostsAsSent ids st).posts) ∧
    (∀ r2 ∈ (markPostsAsSent ids st).posts,
      ∃ r ∈ st.posts, r2 = if r.id ∈ ids then { r with sent := true } else r) := by
  refine ⟨by simp [markPostsAsSent], ?_, ?_, ?_⟩
  · intro r hr hid
    cases hids : ids.isEmpty with
    | true =>
      rw [List.isEmpty_iff] at hids
      subst hids
      cases hid
    | false =>
      simp only [markPostsAsSent, hids, Bool.false_eq_true, if_false]
      exact List.mem_map.mpr ⟨r, hr, by simp [hid]⟩
  · intro r hr hid
    cases hids : ids.isEmpty with
    | true =>
      rw [List.isEmpty_iff] at hids
      subst hids
      simpa [markPostsAsSent] using hr
    | false =>
      simp only [markPostsAsSent, hids, Bool.false_eq_true, if_false]
      exact List.mem_map.mpr ⟨r, hr, by simp [hid]⟩
  · intro r2 hr2
    cases hids : ids.isEmpty with
    | true =>
      rw [List.isEmpty_iff] at hids
      subst hids
      simp only [markPostsAsSent, List.isEmpty_nil, if_true] at hr2
      exact ⟨r2, hr2, by simp⟩
    | false =>
      simp only [markPostsAsSent, hids, Bool.false_eq_true, if_false] at hr2
      obtain ⟨r, hr, heq⟩ := List.mem_map.mp hr2
      exact ⟨r, hr, heq.symm⟩

/-- C6 witness: marking ids 1 and 99 where only id 1 exists flips row 1 to
sent without failing. -/
theorem markPostsAsSent_spec_witness :
    { exPostRow with sent := true } ∈ (markPostsAsSent [1, 99] exSt).posts :=
  (markPostsAsSent_spec [1, 99] exSt).2.1 exPostRow (by decide) (by decide)

/-- C7: every candidate produced by fetchFeed carries the requested feedId and
sent = false; its pubDate is the source timestamp, or the current time when the
source omits it; title and link are the empty string when the item omits them
(they are total strings, never null). -/
theorem fetchFeed_candidate_fields (dev : Bool) (env : String → Except String (List Item))
    (now : Nat) (url : String) (fid : Nat) (items : List Item)
    (henv : env url = Except.ok items) :
    ∀ p ∈ fetchFeed dev env now url fid,
      p.feedId = fid ∧ p.sent = false ∧
      ∃ item ∈ items,
        (∀ t, item.pubDate = some t → p.pubDate = t) ∧
        (item.pubDate = none → p.pubDate = now) ∧
        (item.title = none → p.title = "") ∧
        (item.link = none → p.link = "") := by
  intro p hp
  simp only [fetchFeed, henv] at hp
  have hp2 : p ∈ items.map (fun item =>
      ({ id := none,
         title := jsOr item.title "",
         link := jsOr item.link "",
         content := jsOr item.content (jsOr item.contentSnippet ""),
         pubDate := item.pubDate.getD now,
         feedId := fid,
         sent := false } : Post)) := by
    cases dev with
    | false => simpa using hp
    | true => exact (List.take_sublist 1 _).subset (by simpa using hp)
  obtain ⟨item, hitem, heq⟩ := List.mem_map.mp hp2
  subst heq
  refine ⟨rfl, rfl, item, hitem, ?_, ?_, ?_, ?_⟩
  · intro t ht
    simp [ht]
  · intro ht
    simp [ht]
  · intro ht
    simp [ht, jsOr]
  · intro ht
    simp [ht, jsOr]

/-- A parser environment where every url parses to the single all-absent item. -/
def exEnvOne : String → Except String (List Item) := fun _ => Except.ok [exItem]

/-- The candidate fetchFeed builds from exItem at time 7 for feed 3. -/
def exCand : Post :=
  { id := none, title := "", link := "", content := "", pubDate := 7, feedId := 3, sent := false }

/-- C7 witness: the candidate built from the all-absent item carries the
requested feed id and is unsent. -/
theorem fetchFeed_candidate_fields_witness : exCand.feedId = 3 ∧ exCand.sent = false :=
  ⟨(fetchFeed_candidate_fields false exEnvOne 7 "u" 3 [exItem] rfl exCand (by decide)).1,
   (fetchFeed_candidate_fields false exEnvOne 7 "u" 3 [exItem] rfl exCand (by decide)).2.1⟩

/-- C8: sendNewPosts returns false on an empty list before doing anything (for
any dev flag); in production it returns true exactly when the list is
non-empty and the send resolved with HTTP status 200; and a rejected send is
rethrown as a delivery error. -/
theorem sendNewPosts_spec :
    (∀ (dev : Bool) (sr : Except String Nat), sendNewPosts dev [] sr = EmailOutcome.ok false) ∧
    (∀ (posts : List PostRow) (sr : Except String Nat),
      sendNewPosts false posts sr = EmailOutcome.ok true ↔
        (posts ≠ [] ∧ sr = Except.ok 200)) ∧
    (∀ (posts : List PostRow) (e : String), posts ≠ [] →
      sendNewPosts false posts (Except.error e) = EmailOutcome.thrown e) := by
  refine ⟨?_, ?_, ?_⟩
  · intro dev sr
    simp [sendNewPosts]
  · intro posts sr
    cases posts with
    | nil => simp [sendNewPosts]
    | cons p ps =>
      cases sr with
      | error e => simp [sendNewPosts]
      | ok status => simp [sendNewPosts]
  · intro posts e h
    cases posts with
    | nil => exact absurd rfl h
    | cons p ps => simp [sendNewPosts]

/-- C8 witness: a rejected send on a non-empty list is rethrown. -/
theorem sendNewPosts_spec_witness :
    sendNewPosts false [exPostRow] (Except.error "ses down") = EmailOutcome.thrown "ses down" :=
  sendNewPosts_spec.2.2 [exPostRow] "ses down" (by decide)

/-- C10: a feed whose id is undefined is skipped entirely by the per-feed loop
of processFeeds: the resulting state and the list of fetch calls are exactly
those of the run without that feed, so it is neither fetched nor persisted and
the remaining feeds are processed unchanged. -/
theorem undefined_id_feed_skipped (dev : Bool) (env : String → Except String (List Item))
    (now : Nat) (st : DBState) (l1 l2 : List Feed) (f : Feed) (hf : f.id = none) :
    persistFeeds dev env now (l1 ++ f :: l2) st = persistFeeds dev env now (l1 ++ l2) st := by
  induction l1 generalizing st with
  | nil => simp [persistFeeds, hf]
  | cons g l1 ih =>
    cases hid : g.id with
    | none => simpa [persistFeeds, hid] using ih st
    | some gid =>
      cases dev with
      | true => simp [persistFeeds, hid]
      | false =>
        have hrec := ih (saveNewPosts (fetchFeed false env now g.url gid) st)
        simp [persistFeeds, hid, hrec]

/-- A listed feed whose id is undefined. -/
def exFNone : Feed := { id := none, url := "broken", lastChecked := none }

/-- C10 witness: inserting the undefined-id feed between the two good feeds
changes neither the final state nor the fetch calls. -/
theorem undefined_id_feed_skipped_witness :
    persistFeeds false exEnv3 0 ([exF1] ++ exFNone :: [exF3]) dbEmpty =
      persistFeeds false exEnv3 0 ([exF1] ++ [exF3]) dbEmpty :=
  undefined_id_feed_skipped false exEnv3 0 dbEmpty [exF1] [exF3] exFNone rfl

end Rss2Mail
